import Mathlib

/-!
Verification development for the Anvaya CRM API (src/server.js).

The domain operations of server.js are embedded shallowly: each async
handler function becomes a pure Lean function over an explicit store
state `DB`.  Thrown JavaScript error objects become an `Except JsError`
result; the catch-block classifications of server.js are inlined at the
points where the corresponding throw can occur.  External persistence
failures (network errors etc.) are injected through a `SaveOutcome`
parameter standing for the behaviour of the store's save call after
schema validation has passed.
-/

namespace Crm

/-- A JavaScript error value as the code inspects it: operations throw
plain objects carrying a `type` tag and a `message`; mongoose throws
errors carrying a `name` (for example ValidationError), a numeric
`code` (11000 for duplicate keys) and per-field messages. -/
structure JsError where
  type : Option String := none
  name : Option String := none
  code : Option Int := none
  message : String := ""
  errors : List String := []
deriving DecidableEq, Repr

/-- Build one of the tagged error objects that server.js throws. -/
def opError (t msg : String) : JsError :=
  { type := some t, message := msg }

/-- Join field-level validation messages as the catch blocks do:
`errors.join('. ')`. -/
def joinMsgs (msgs : List String) : String :=
  String.intercalate ". " msgs

/-- Modelled from the spec: a structurally valid identifier is a value
conforming to the store's identifier format (mongoose
`Types.ObjectId.isValid`, applied here to hex strings): 24 hexadecimal
characters. -/
def isValidObjectId (s : String) : Bool :=
  s.length == 24 && s.toList.all (fun c => ("0123456789abcdefABCDEF".toList).contains c)

/-- Lead record (schema fields per spec section 3; `id` is the stored
identifier, `closedAt` a nullable millisecond timestamp). -/
structure Lead where
  id : String
  name : String
  source : String
  salesAgent : String
  status : String
  tags : List String
  timeToClose : Int
  priority : Option String
  closedAt : Option Int
deriving DecidableEq, Repr

/-- SalesAgent record. -/
structure SalesAgent where
  id : String
  name : String
  email : String
deriving DecidableEq, Repr

/-- Comment record. -/
structure Comment where
  id : String
  lead : String
  commentText : String
  author : String
  createdAt : Int
deriving DecidableEq, Repr

/-- Tag record. -/
structure Tag where
  id : String
  name : String
deriving DecidableEq, Repr

/-- The document store: one collection per entity. -/
structure DB where
  leads : List Lead
  agents : List SalesAgent
  comments : List Comment
  tags : List Tag
deriving DecidableEq, Repr

/-- `Lead.findById`. -/
def findLead (leads : List Lead) (id : String) : Option Lead :=
  leads.find? (fun l => l.id == id)

/-- `SalesAgent.findById`. -/
def findAgent (agents : List SalesAgent) (id : String) : Option SalesAgent :=
  agents.find? (fun a => a.id == id)

/-- The five valid Lead statuses (server.js line 92). -/
def validStatuses : List String :=
  ["New", "Contacted", "Qualified", "Proposal Sent", "Closed"]

/-- The six valid Lead sources (server.js line 93). -/
def validSources : List String :=
  ["Website", "Referral", "Cold Call", "Advertisement", "Email", "Other"]

/-- Modelled from the spec: the Lead schema's field constraints
(src/models/lead.model is not in the sources).  Spec section 3: name
required, source one of six values, salesAgent required, status one of
five values, timeToClose required (always present here).  Returns the
list of violated-field messages that a mongoose ValidationError would
carry. -/
def validateLead (l : Lead) : List String :=
  (if l.name = "" then ["Lead name is required."] else []) ++
  (if validSources.contains l.source then [] else ["Invalid lead source."]) ++
  (if l.salesAgent = "" then ["Sales agent is required."] else []) ++
  (if validStatuses.contains l.status then [] else ["Invalid lead status."])

/-- Modelled from the spec: the SalesAgent schema's field constraints
(name and email required; email uniqueness is checked by the store at
save time, not here). -/
def validateAgent (a : SalesAgent) : List String :=
  (if a.name = "" then ["Agent name is required."] else []) ++
  (if a.email = "" then ["Agent email is required."] else [])

/-- Modelled from the spec: the Comment schema's field constraints
(lead, commentText and author required). -/
def validateComment (c : Comment) : List String :=
  (if c.lead = "" then ["Comment lead is required."] else []) ++
  (if c.commentText = "" then ["Comment text is required."] else []) ++
  (if c.author = "" then ["Comment author is required."] else [])

/-- Outcome of the external store's write after schema validation has
passed: either the write succeeds or the store throws an arbitrary
error (network failure, duplicate key, ...). -/
inductive SaveOutcome where
  | success
  | failure (e : JsError)
deriving DecidableEq, Repr

/-- Payload of Create Lead (req.body fields destructured at server.js
line 24). -/
structure LeadDetails where
  name : String
  source : String
  salesAgent : String
  status : String
  tags : List String
  timeToClose : Int
  priority : Option String
deriving DecidableEq, Repr

/-- The Lead document constructed by `createNewLead` (server.js lines
32-44): the supplied fields, with closedAt set to the current time
exactly when the supplied status is Closed. -/
def buildLead (details : LeadDetails) (now : Int) (newId : String) : Lead :=
  { id := newId, name := details.name, source := details.source,
    salesAgent := details.salesAgent, status := details.status,
    tags := details.tags, timeToClose := details.timeToClose,
    priority := details.priority,
    closedAt := if details.status == "Closed" then some now else none }

/-- `createNewLead` (server.js lines 22-64): rejects a structurally
invalid salesAgent with INVALID_ID_FORMAT, a missing agent with
NOT_FOUND; otherwise builds the Lead via `buildLead` and saves it.
The catch block turns a ValidationError into INVALID_INPUT and
rethrows anything else unchanged. -/
def createNewLead (details : LeadDetails) (now : Int) (newId : String)
    (out : SaveOutcome) (db : DB) : Except JsError Lead × DB :=
  if !(isValidObjectId details.salesAgent) then
    (.error (opError "INVALID_ID_FORMAT" "Invalid ID Format."), db)
  else
    match findAgent db.agents details.salesAgent with
    | some _ =>
      let newLead : Lead := buildLead details now newId
      match validateLead newLead with
      | [] =>
        match out with
        | .success => (.ok newLead, { db with leads := db.leads ++ [newLead] })
        | .failure e =>
          if e.name == some "ValidationError" then
            (.error (opError "INVALID_INPUT" ("Invalid Input: " ++ joinMsgs e.errors)), db)
          else
            (.error e, db)
      | errs =>
        (.error (opError "INVALID_INPUT" ("Invalid Input: " ++ joinMsgs errs)), db)
    | none =>
      (.error (opError "NOT_FOUND"
        ("Sales agent with ID " ++ details.salesAgent ++ " not found.")), db)

/-- Query filters for List Leads (req.query fields destructured at
server.js line 95); `none` is an absent parameter.  JavaScript
truthiness of a present-but-empty query string is `false`. -/
structure LeadQuery where
  salesAgent : Option String
  status : Option String
  tags : Option String
  source : Option String
deriving DecidableEq, Repr

/-- JavaScript truthiness of an optional query-string value. -/
def truthy : Option String → Bool
  | none => false
  | some s => !s.isEmpty

/-- The store's matching of `Lead.find(query)`: equality on each field
present in the query object, membership for the tags filter. -/
def leadMatchesQuery (q : LeadQuery) (l : Lead) : Bool :=
  (match q.salesAgent with | some s => l.salesAgent == s | none => true) &&
  (match q.status with | some s => l.status == s | none => true) &&
  (match q.tags with | some t => l.tags.contains t | none => true) &&
  (match q.source with | some s => l.source == s | none => true)

/-- The violated-filter message for an invalid salesAgent filter
(server.js line 101). -/
def agentFilterMsg : String := "Invalid sales agent ObjectId."

/-- The violated-filter message for an invalid status filter
(server.js line 110). -/
def statusFilterMsg : String :=
  "'status' must be one of ['New', 'Contacted', 'Qualified', 'Proposal Sent', 'Closed']."

/-- The violated-filter message for an invalid source filter
(server.js line 123; the source has no trailing period there). -/
def sourceFilterMsg : String :=
  "'source' must be one of ['Website', 'Referral', 'Cold Call', 'Advertisement', 'Email', 'Other']"

/-- One step of the filter validation of `getAllLeads`: when the query
value is present (truthy) and fails its check, the violated-filter
message is appended to the accumulated message. -/
def filterCheck (base : String) (o : Option String) (ok : String → Bool)
    (m : String) : String :=
  match o with
  | some s => if s.isEmpty then base else if ok s then base else base ++ m
  | none => base

/-- `getAllLeads` (server.js lines 88-141): validates the salesAgent,
status and source filters, accumulating one INVALID_INPUT message by
string concatenation, and throws it before any store query runs when
any filter is violated; otherwise queries, returning NOT_FOUND on an
empty result set.  The second component records whether the store was
queried.  (The code's populate of the agent name only decorates each
returned element and is not modelled.) -/
def getAllLeads (q : LeadQuery) (db : DB) : Except JsError (List Lead) × Bool :=
  let msg0 := "Invalid input: "
  let msg1 := filterCheck msg0 q.salesAgent isValidObjectId agentFilterMsg
  let msg2 := filterCheck msg1 q.status (fun s => validStatuses.contains s) statusFilterMsg
  let msg3 := filterCheck msg2 q.source (fun s => validSources.contains s) sourceFilterMsg
  if msg3 != msg0 then
    (.error (opError "INVALID_INPUT" msg3), false)
  else
    let allLeads := db.leads.filter (leadMatchesQuery q)
    if allLeads.length != 0 then (.ok allLeads, true)
    else (.error (opError "NOT_FOUND" "Lead Data Not Found."), true)

/-- Partial update payload of Update Lead: `none` means the field is
not supplied.  `closedAt` is doubly optional: `some v` supplies the
nullable value `v`. -/
structure LeadUpdate where
  name : Option String := none
  source : Option String := none
  salesAgent : Option String := none
  status : Option String := none
  tags : Option (List String) := none
  timeToClose : Option Int := none
  priority : Option String := none
  closedAt : Option (Option Int) := none
deriving DecidableEq, Repr

/-- The store's `findByIdAndUpdate` merge semantics with a single
top-level set operator: each supplied field replaces the prior value,
every other field is kept. -/
def applySet (u : LeadUpdate) (l : Lead) : Lead :=
  { l with
    name := u.name.getD l.name,
    source := u.source.getD l.source,
    salesAgent := u.salesAgent.getD l.salesAgent,
    status := u.status.getD l.status,
    tags := u.tags.getD l.tags,
    timeToClose := u.timeToClose.getD l.timeToClose,
    priority := (match u.priority with | some p => some p | none => l.priority),
    closedAt := u.closedAt.getD l.closedAt }

/-- `updateLead` (server.js lines 160-190): INVALID_ID_FORMAT on a
structurally invalid id, NOT_FOUND when no Lead has that id, otherwise
a validated partial merge (runValidators) written back in place; the
catch turns a ValidationError into INVALID_INPUT and rethrows anything
else unchanged. -/
def updateLead (leadId : String) (u : LeadUpdate) (out : SaveOutcome) (db : DB) :
    Except JsError Lead × DB :=
  if !(isValidObjectId leadId) then
    (.error (opError "INVALID_ID_FORMAT" "Invalid Lead ID."), db)
  else
    match findLead db.leads leadId with
    | some lead =>
      let updated := applySet u lead
      match validateLead updated with
      | [] =>
        match out with
        | .success =>
          (.ok updated,
           { db with leads := db.leads.map (fun x => if x.id == leadId then updated else x) })
        | .failure e =>
          if e.name == some "ValidationError" then
            (.error (opError "INVALID_INPUT" ("Invalid Input: " ++ joinMsgs e.errors)), db)
          else
            (.error e, db)
      | errs =>
        (.error (opError "INVALID_INPUT" ("Invalid Input: " ++ joinMsgs errs)), db)
    | none => (.error (opError "NOT_FOUND" "Lead Not Found."), db)

/-- The store's behaviour for `newAgent.save()`: schema validation
first, then the unique-email index (a MongoServerError with code
11000), then the injected external outcome. -/
def agentSaveResult (a : SalesAgent) (out : SaveOutcome) (db : DB) :
    Except JsError SalesAgent × DB :=
  match validateAgent a with
  | [] =>
    if db.agents.any (fun x => x.email == a.email) then
      (.error { name := some "MongoServerError", code := some 11000,
                message := "duplicate key error" }, db)
    else
      match out with
      | .success => (.ok a, { db with agents := db.agents ++ [a] })
      | .failure e => (.error e, db)
  | errs =>
    (.error { name := some "ValidationError", errors := errs,
              message := "validation failed" }, db)

/-- `createNewSalesAgent` (server.js lines 253-279): saves the new
agent; the catch classifies a ValidationError as INVALID_INPUT and a
code-11000 error as DUPLICATE_KEY, and SWALLOWS every other error:
the function then returns undefined (modelled as `.ok none`) rather
than rethrowing. -/
def createNewSalesAgent (name email newId : String) (out : SaveOutcome) (db : DB) :
    Except JsError (Option SalesAgent) × DB :=
  match agentSaveResult { id := newId, name := name, email := email } out db with
  | (.ok a, db2) => (.ok (some a), db2)
  | (.error e, db2) =>
    if e.name == some "ValidationError" then
      (.error (opError "INVALID_INPUT" ("Invalid Input: " ++ joinMsgs e.errors)), db2)
    else if e.code == some 11000 then
      (.error (opError "DUPLICATE_KEY"
        ("Sales agent with email '" ++ email ++ "' already exists.'")), db2)
    else
      (.ok none, db2)

/-- `getAllSalesAgents` (server.js lines 303-314): all agents, or
NOT_FOUND when there are none. -/
def getAllSalesAgents (db : DB) : Except JsError (List SalesAgent) :=
  if db.agents.length != 0 then .ok db.agents
  else .error (opError "NOT_FOUND" "Sales Agents Not Found.")

/-- Payload of Add Comment (req.body destructured at server.js
line 336). -/
structure CommentData where
  commentText : String
  author : String
deriving DecidableEq, Repr

/-- `addComments` (server.js lines 334-366): INVALID_LEAD_ID on a
structurally invalid leadId, then INVALID_AGENT_ID on a structurally
invalid author, then NOT_FOUND when the Lead does not exist; only then
is the comment built and saved.  The author is never resolved against
the agents collection.  The catch turns a ValidationError into
INVALID_INPUT and rethrows anything else unchanged. -/
def addComments (leadId : String) (cd : CommentData) (newId : String) (now : Int)
    (out : SaveOutcome) (db : DB) : Except JsError Comment × DB :=
  if !(isValidObjectId leadId) then
    (.error (opError "INVALID_LEAD_ID" "Invalid Lead ID."), db)
  else if !(isValidObjectId cd.author) then
    (.error (opError "INVALID_AGENT_ID" "Invalid Sales Agent ID."), db)
  else
    match findLead db.leads leadId with
    | some _ =>
      let c : Comment :=
        { id := newId, lead := leadId, commentText := cd.commentText,
          author := cd.author, createdAt := now }
      match validateComment c with
      | [] =>
        match out with
        | .success => (.ok c, { db with comments := db.comments ++ [c] })
        | .failure e =>
          if e.name == some "ValidationError" then
            (.error (opError "INVALID_INPUT" ("Invalid Input: " ++ joinMsgs e.errors)), db)
          else
            (.error e, db)
      | errs =>
        (.error (opError "INVALID_INPUT" ("Invalid Input: " ++ joinMsgs errs)), db)
    | none =>
      (.error (opError "NOT_FOUND" ("Lead with ID '" ++ leadId ++ "' not found.")), db)

/-- `getAllComments` (server.js lines 389-404): INVALID_ID_FORMAT on a
structurally invalid leadId; otherwise the comments of that lead, or
NOT_FOUND when there are none.  (The populate of the author record
only decorates each element and is not modelled.) -/
def getAllComments (leadId : String) (db : DB) : Except JsError (List Comment) :=
  if !(isValidObjectId leadId) then
    .error (opError "INVALID_ID_FORMAT" "Invalid Lead ID Format.")
  else
    let allComments := db.comments.filter (fun c => c.lead == leadId)
    if allComments.length != 0 then .ok allComments
    else .error (opError "NOT_FOUND"
      ("Comments for lead ID '" ++ leadId ++ "' not found."))

/-- `getAllTags` (server.js lines 534-545): all tags, or NOT_FOUND when
there are none. -/
def getAllTags (db : DB) : Except JsError (List Tag) :=
  if db.tags.length != 0 then .ok db.tags
  else .error (opError "NOT_FOUND" "No Tags Found.")

/-- Milliseconds in seven days. -/
def sevenDaysMs : Int := 7 * 86400000

/-- `leadsClosedLastWeek` (server.js lines 427-441): queries the store
for Leads whose closedAt is at least `now` minus seven days — a lower
bound only, with no upper bound at `now` — and returns NOT_FOUND when
the result set is empty.  A document without a closedAt date never
matches the range query. -/
def leadsClosedLastWeek (now : Int) (db : DB) : Except JsError (List Lead) :=
  let sevenDaysAgo := now - sevenDaysMs
  let closedLeads := db.leads.filter
    (fun l => match l.closedAt with
              | some t => decide (sevenDaysAgo ≤ t)
              | none => false)
  if closedLeads.length != 0 then .ok closedLeads
  else .error (opError "NOT_FOUND" "No Closed Leads for Last Week found.")

/-- An HTTP response as produced by a route handler: a status code and
the body (the error-field text or a success marker). -/
structure HttpResponse where
  status : Nat
  body : String
deriving DecidableEq, Repr

/-- The catch block of POST /leads (server.js lines 72-83): a switch on
`error.type` with a default mapping everything else to 500. -/
def postLeadsErr (e : JsError) : Option HttpResponse :=
  match e.type with
  | some t =>
    if t == "INVALID_ID_FORMAT" then some { status := 400, body := e.message }
    else if t == "NOT_FOUND" then some { status := 404, body := e.message }
    else if t == "INVALID_INPUT" then some { status := 400, body := e.message }
    else some { status := 500, body := "Server Error." }
  | none => some { status := 500, body := "Server Error." }

/-- The catch block of GET /leads (server.js lines 149-156): a switch
on `error.type` with NO default case — an unmapped failure falls
through the switch and no response is sent (modelled as `none`). -/
def getLeadsErr (e : JsError) : Option HttpResponse :=
  match e.type with
  | some t =>
    if t == "INVALID_INPUT" then some { status := 400, body := e.message }
    else if t == "NOT_FOUND" then some { status := 404, body := e.message }
    else none
  | none => none

/-- The catch block of PUT /leads/:id (server.js lines 198-209): a
switch with a default mapping everything else to 500. -/
def putLeadErr (e : JsError) : Option HttpResponse :=
  match e.type with
  | some t =>
    if t == "INVALID_ID_FORMAT" then some { status := 400, body := e.message }
    else if t == "NOT_FOUND" then some { status := 404, body := e.message }
    else if t == "INVALID_INPUT" then some { status := 400, body := e.message }
    else some { status := 500, body := "Server Error" }
  | none => some { status := 500, body := "Server Error" }

/-- The catch block of POST /agents (server.js lines 287-299): a switch
with a default mapping everything else to 500. -/
def postAgentsErr (e : JsError) : Option HttpResponse :=
  match e.type with
  | some t =>
    if t == "INVALID_INPUT" then some { status := 400, body := e.message }
    else if t == "DUPLICATE_KEY" then some { status := 409, body := e.message }
    else some { status := 500, body := "Server Error." }
  | none => some { status := 500, body := "Server Error." }

/-- The catch block of POST /leads/:id/comments (server.js lines
374-385): a switch on `error.type` with NO default case — an unmapped
failure falls through the switch and no response is sent. -/
def postCommentsErr (e : JsError) : Option HttpResponse :=
  match e.type with
  | some t =>
    if t == "INVALID_LEAD_ID" then some { status := 400, body := e.message }
    else if t == "INVALID_AGENT_ID" then some { status := 400, body := e.message }
    else if t == "NOT_FOUND" then some { status := 404, body := e.message }
    else if t == "INVALID_INPUT" then some { status := 400, body := e.message }
    else none
  | none => none

/-- The salesAgent filter of List Leads is present and violated. -/
def agentFilterViolated (q : LeadQuery) : Bool :=
  truthy q.salesAgent && !(isValidObjectId (q.salesAgent.getD ""))

/-- The status filter of List Leads is present and violated. -/
def statusFilterViolated (q : LeadQuery) : Bool :=
  truthy q.status && !(validStatuses.contains (q.status.getD ""))

/-- The source filter of List Leads is present and violated. -/
def sourceFilterViolated (q : LeadQuery) : Bool :=
  truthy q.source && !(validSources.contains (q.source.getD ""))

/- Concrete fixtures used by the witness and counterexample theorems. -/

/-- A structurally valid agent identifier. -/
def agentId0 : String := "aaaaaaaaaaaaaaaaaaaaaaaa"

/-- A structurally valid lead identifier. -/
def leadId0 : String := "bbbbbbbbbbbbbbbbbbbbbbbb"

/-- A structurally valid identifier that no stored record carries. -/
def ghostId0 : String := "cccccccccccccccccccccccc"

/-- A stored sales agent. -/
def agentA : SalesAgent := { id := agentId0, name := "A", email := "a@x.com" }

/-- A stored lead owned by `agentA`, not yet closed. -/
def leadL : Lead :=
  { id := leadId0, name := "L", source := "Website", salesAgent := agentId0,
    status := "New", tags := [], timeToClose := 30, priority := none, closedAt := none }

/-- A store holding one lead and one agent. -/
def db0 : DB := { leads := [leadL], agents := [agentA], comments := [], tags := [] }

/-- The empty store. -/
def dbEmpty : DB := { leads := [], agents := [], comments := [], tags := [] }

/-- A Create Lead payload whose salesAgent is structurally invalid. -/
def badDetails : LeadDetails :=
  { name := "X", source := "Website", salesAgent := "not-an-id", status := "New",
    tags := [], timeToClose := 5, priority := none }

/-- A Create Lead payload whose salesAgent is structurally valid but
matches no stored agent. -/
def ghostDetails : LeadDetails := { badDetails with salesAgent := ghostId0 }

/-- `leadL` after a partial update that only sets its status to
Closed: the merge leaves closedAt at its prior null value. -/
def closedLead : Lead := { leadL with status := "Closed" }

/-- The store after that status-only update of `leadL`. -/
def dbClosed : DB := { db0 with leads := [closedLead] }

/-- A Create Lead payload with status Closed for an existing agent. -/
def closedDetails : LeadDetails :=
  { name := "C", source := "Website", salesAgent := agentId0, status := "Closed",
    tags := [], timeToClose := 10, priority := none }

/-- The lead persisted by Create Lead for `closedDetails` at time 5. -/
def closedCreated : Lead :=
  { id := ghostId0, name := "C", source := "Website", salesAgent := agentId0,
    status := "Closed", tags := [], timeToClose := 10, priority := none,
    closedAt := some 5 }

/-- The store after persisting `closedCreated`. -/
def dbAfterCreate : DB := { db0 with leads := db0.leads ++ [closedCreated] }

/-- An Add Comment payload whose author is structurally invalid. -/
def cdBad : CommentData := { commentText := "hi", author := "nope" }

/-- An Add Comment payload authored by the stored agent. -/
def cdGood : CommentData := { commentText := "hi", author := agentId0 }

/-- An Add Comment payload whose author is a structurally valid
identifier carried by no stored agent. -/
def cdGhost : CommentData := { commentText := "hi", author := ghostId0 }

/-- A concrete call time for the last-week report. -/
def now0 : Int := 1700000000000

/-- A closed lead whose closedAt lies one day in the future of
`now0`. -/
def futureLead : Lead :=
  { leadL with status := "Closed", closedAt := some 1700086400000 }

/-- A store holding only `futureLead`. -/
def dbC9 : DB := { dbEmpty with leads := [futureLead] }

/-- An unclassified persistence error: neither a ValidationError nor a
duplicate-key error, and carrying no operation type tag. -/
def weirdErr : JsError := { name := some "MongoNetworkError", message := "connection lost" }

/-- An unclassified runtime failure reaching a route boundary: its
`type` tag is absent, so every switch on `error.type` falls through to
its default case when one exists. -/
def typeErr : JsError := { name := some "TypeError", message := "boom" }

/-- A List Leads query with an out-of-enum status filter. -/
def qBad : LeadQuery :=
  { salesAgent := none, status := some "Bogus", tags := none, source := none }

/-- The List Leads query with no filters. -/
def qNone : LeadQuery :=
  { salesAgent := none, status := none, tags := none, source := none }

instance {ε α : Type} [DecidableEq ε] [DecidableEq α] : DecidableEq (Except ε α) :=
  fun x y =>
    match x, y with
    | .ok a, .ok b =>
      if h : a = b then isTrue (by rw [h])
      else isFalse (by intro hh; cases hh; exact h rfl)
    | .ok _, .error _ => isFalse (fun hh => Except.noConfusion hh)
    | .error _, .ok _ => isFalse (fun hh => Except.noConfusion hh)
    | .error e, .error f =>
      if h : e = f then isTrue (by rw [h])
      else isFalse (by intro hh; cases hh; exact h rfl)

end Crm

namespace Crm

/-- Unfolding of one filter-validation step of `getAllLeads` into the
violated-filter condition. -/
theorem filterCheck_eq (base : String) (o : Option String) (ok : String → Bool)
    (m : String) :
    filterCheck base o ok m =
      base ++ (if truthy o && !(ok (o.getD "")) then m else "") := by
  cases o with
  | none => simp [filterCheck, truthy, String.append_empty]
  | some s =>
    cases hse : s.isEmpty with
    | true => simp [filterCheck, truthy, hse, String.append_empty]
    | false =>
      cases hok : ok s with
      | true => simp [filterCheck, truthy, hse, hok, String.append_empty]
      | false => simp [filterCheck, truthy, hse, hok]

/-- A structurally valid identifier is a nonempty string. -/
theorem isValidObjectId_ne_empty (s : String) (h : isValidObjectId s = true) :
    s ≠ "" := by
  intro hs
  subst hs
  simp [isValidObjectId] at h

/-- C1: a Create Lead call with a structurally invalid salesAgent
results in INVALID_ID_FORMAT, one with a structurally valid but
non-existent salesAgent results in NOT_FOUND, and in both failure
cases the store — in particular the Lead collection — is unchanged. -/
theorem c1_create_lead_failures (details : LeadDetails) (now : Int) (newId : String)
    (out : SaveOutcome) (db : DB) :
    (isValidObjectId details.salesAgent = false →
      createNewLead details now newId out db =
        (Except.error (opError "INVALID_ID_FORMAT" "Invalid ID Format."), db)) ∧
    (isValidObjectId details.salesAgent = true →
      findAgent db.agents details.salesAgent = none →
      createNewLead details now newId out db =
        (Except.error (opError "NOT_FOUND"
          ("Sales agent with ID " ++ details.salesAgent ++ " not found.")), db)) := by
  constructor
  · intro h
    simp [createNewLead, h]
  · intro h hagent
    simp [createNewLead, h, hagent]

/-- C2 counterexample: updating the status of a stored open lead to
Closed succeeds but leaves closedAt null, so the persisted record
violates the claimed invariant that closedAt is set exactly when the
status is Closed. -/
theorem c2_counterexample :
    (updateLead leadId0 { status := some "Closed" } SaveOutcome.success db0).1 =
      Except.ok closedLead ∧
    closedLead.status = "Closed" ∧ closedLead.closedAt = none := by
  refine ⟨by decide, rfl, rfl⟩

/-- C2 amended: Create Lead establishes the invariant — the persisted
lead's closedAt is non-null exactly when its status is Closed — but
Update Lead merely merges the supplied fields: the resulting record's
closedAt equals the supplied closedAt value when one is supplied and
the prior value otherwise, so a status-only update to Closed does not
set closedAt. -/
theorem c2_closed_invariant :
    (∀ (details : LeadDetails) (now : Int) (newId : String) (out : SaveOutcome)
       (db db2 : DB) (l : Lead),
       createNewLead details now newId out db = (Except.ok l, db2) →
       (l.closedAt ≠ none ↔ l.status = "Closed")) ∧
    (∀ (leadId : String) (u : LeadUpdate) (out : SaveOutcome) (db db2 : DB)
       (lead l : Lead),
       findLead db.leads leadId = some lead →
       updateLead leadId u out db = (Except.ok l, db2) →
       l.closedAt = u.closedAt.getD lead.closedAt) := by
  constructor
  · intro details now newId out db db2 l h
    simp only [createNewLead] at h
    split at h
    · simp at h
    · split at h
      · split at h
        · split at h
          · simp only [Prod.mk.injEq, Except.ok.injEq] at h
            obtain ⟨hl, -⟩ := h
            subst hl
            simp only [buildLead]
            cases hs : details.status == "Closed" with
            | true => simp_all
            | false => simp_all
          · split at h <;> simp at h
        · simp at h
      · simp at h
  · intro leadId u out db db2 lead l hfind h
    simp only [updateLead, hfind] at h
    split at h
    · simp at h
    · split at h
      · split at h
        · simp only [Prod.mk.injEq, Except.ok.injEq] at h
          obtain ⟨hl, -⟩ := h
          subst hl
          rfl
        · split at h <;> simp at h
      · simp at h

/-- C2 amended witness: the create branch at a concrete Closed
creation and the update branch at the concrete status-only update. -/
theorem c2_closed_invariant_witness :
    (closedCreated.closedAt ≠ none ↔ closedCreated.status = "Closed") ∧
    closedLead.closedAt =
      ({ status := some "Closed" } : LeadUpdate).closedAt.getD leadL.closedAt :=
  ⟨c2_closed_invariant.1 closedDetails 5 ghostId0 SaveOutcome.success db0
     dbAfterCreate closedCreated (by decide),
   c2_closed_invariant.2 leadId0 { status := some "Closed" } SaveOutcome.success db0
     dbClosed leadL closedLead (by decide) (by decide)⟩

/-- C3: when any combination of the salesAgent, status and source
filters of a List Leads call is violated, the result is a single
INVALID_INPUT failure whose message is the concatenation of the
violated-filter messages, and the store is not queried (the second
component of `getAllLeads` is false). -/
theorem c3_invalid_filters (q : LeadQuery) (db : DB) :
    (agentFilterViolated q || statusFilterViolated q || sourceFilterViolated q) = true →
    getAllLeads q db =
      (Except.error (opError "INVALID_INPUT"
        ("Invalid input: " ++
         (if agentFilterViolated q then agentFilterMsg else "") ++
         (if statusFilterViolated q then statusFilterMsg else "") ++
         (if sourceFilterViolated q then sourceFilterMsg else ""))), false) := by
  intro hviol
  have hmsg :
      filterCheck
        (filterCheck (filterCheck "Invalid input: " q.salesAgent isValidObjectId agentFilterMsg)
          q.status (fun s => validStatuses.contains s) statusFilterMsg)
        q.source (fun s => validSources.contains s) sourceFilterMsg =
      "Invalid input: " ++
        (if agentFilterViolated q then agentFilterMsg else "") ++
        (if statusFilterViolated q then statusFilterMsg else "") ++
        (if sourceFilterViolated q then sourceFilterMsg else "") := by
    rw [filterCheck_eq, filterCheck_eq, filterCheck_eq]
    simp only [agentFilterViolated, statusFilterViolated, sourceFilterViolated]
  simp only [getAllLeads, hmsg]
  cases hA : agentFilterViolated q <;> cases hB : statusFilterViolated q <;>
    cases hC : sourceFilterViolated q <;>
    rw [hA, hB, hC] at hviol <;> simp only [Bool.or_self, Bool.or_false,
      Bool.false_or, Bool.or_true, Bool.true_or] at hviol
  · exact absurd hviol (by simp)
  all_goals simp only [if_pos, if_neg, Bool.false_eq_true, not_false_eq_true,
    if_true, if_false, ite_true, ite_false]
  all_goals exact if_pos (by decide)

/-- C3 witness: a status filter outside the enum produces the
INVALID_INPUT failure without querying the store. -/
theorem c3_invalid_filters_witness :
    getAllLeads qBad db0 =
      (Except.error (opError "INVALID_INPUT"
        ("Invalid input: " ++
         (if agentFilterViolated qBad then agentFilterMsg else "") ++
         (if statusFilterViolated qBad then statusFilterMsg else "") ++
         (if sourceFilterViolated qBad then sourceFilterMsg else ""))), false) :=
  c3_invalid_filters qBad db0 (by decide)

/-- C4: each listing operation that reaches the store query returns
NOT_FOUND exactly when the result set is empty, and otherwise the full
result set exactly as the store returns it: List Leads (under the
store-was-queried flag), List Agents, List Comments (under a
structurally valid leadId), and List Tags. -/
theorem c4_list_not_found (q : LeadQuery) (db : DB) (leadId : String) :
    ((getAllLeads q db).2 = true →
      (((getAllLeads q db).1 =
          Except.error (opError "NOT_FOUND" "Lead Data Not Found.") ↔
        db.leads.filter (leadMatchesQuery q) = []) ∧
      (db.leads.filter (leadMatchesQuery q) ≠ [] →
        (getAllLeads q db).1 = Except.ok (db.leads.filter (leadMatchesQuery q))))) ∧
    ((getAllSalesAgents db =
        Except.error (opError "NOT_FOUND" "Sales Agents Not Found.") ↔
      db.agents = []) ∧
     (db.agents ≠ [] → getAllSalesAgents db = Except.ok db.agents)) ∧
    (isValidObjectId leadId = true →
      ((getAllComments leadId db =
          Except.error (opError "NOT_FOUND"
            ("Comments for lead ID '" ++ leadId ++ "' not found.")) ↔
        db.comments.filter (fun c => c.lead == leadId) = []) ∧
      (db.comments.filter (fun c => c.lead == leadId) ≠ [] →
        getAllComments leadId db =
          Except.ok (db.comments.filter (fun c => c.lead == leadId))))) ∧
    ((getAllTags db = Except.error (opError "NOT_FOUND" "No Tags Found.") ↔
      db.tags = []) ∧
     (db.tags ≠ [] → getAllTags db = Except.ok db.tags)) := by
  refine ⟨?_, ⟨?_, ?_⟩, ?_, ⟨?_, ?_⟩⟩
  · intro hq
    by_cases hmp :
        (filterCheck
          (filterCheck (filterCheck "Invalid input: " q.salesAgent isValidObjectId agentFilterMsg)
            q.status (fun s => validStatuses.contains s) statusFilterMsg)
          q.source (fun s => validSources.contains s) sourceFilterMsg != "Invalid input: ") = true
    · exfalso
      simp only [getAllLeads, if_pos hmp] at hq
      exact Bool.false_ne_true hq
    · have heq :
          filterCheck
            (filterCheck (filterCheck "Invalid input: " q.salesAgent isValidObjectId agentFilterMsg)
              q.status (fun s => validStatuses.contains s) statusFilterMsg)
            q.source (fun s => validSources.contains s) sourceFilterMsg = "Invalid input: " := by
        simpa [bne_iff_ne] using hmp
      have hgal : getAllLeads q db =
          (if (db.leads.filter (leadMatchesQuery q)).length != 0 then
            (Except.ok (db.leads.filter (leadMatchesQuery q)), true)
          else (Except.error (opError "NOT_FOUND" "Lead Data Not Found."), true)) := by
        simp only [getAllLeads]
        rw [heq]
        simp
      by_cases hf : db.leads.filter (leadMatchesQuery q) = []
      · rw [hgal]
        constructor
        · simp [hf]
        · intro hne; exact absurd hf hne
      · have hlen : ((db.leads.filter (leadMatchesQuery q)).length != 0) = true := by
          simp [bne_iff_ne, List.length_eq_zero, hf]
        rw [hgal]
        constructor
        · simp [hlen, hf]
        · intro _
          simp [hlen]
  · by_cases h : db.agents = []
    · simp [getAllSalesAgents, h]
    · have hlen : (db.agents.length != 0) = true := by
        simp [bne_iff_ne, List.length_eq_zero, h]
      simp [getAllSalesAgents, hlen, h]
  · intro h
    simp [getAllSalesAgents, bne_iff_ne, List.length_eq_zero, h]
  · intro hid
    by_cases hf : db.comments.filter (fun c => c.lead == leadId) = []
    · constructor
      · simp [getAllComments, hid, hf]
      · intro hne; exact absurd hf hne
    · have hlen : (List.length (db.comments.filter (fun c => c.lead == leadId)) != 0) = true := by
        simp [bne_iff_ne, List.length_eq_zero, hf]
      constructor
      · simp [getAllComments, hid, hlen, hf]
      · intro _
        simp [getAllComments, hid, hlen]
  · by_cases h : db.tags = []
    · simp [getAllTags, h]
    · have hlen : (db.tags.length != 0) = true := by
        simp [bne_iff_ne, List.length_eq_zero, h]
      simp [getAllTags, hlen, h]
  · intro h
    simp [getAllTags, bne_iff_ne, List.length_eq_zero, h]

/-- C4 witness: on a concrete store, List Leads returns the full
filtered set, List Agents the full agent set, and List Comments and
List Tags return NOT_FOUND on their empty collections. -/
theorem c4_list_not_found_witness :
    (getAllLeads qNone db0).1 =
      Except.ok (db0.leads.filter (leadMatchesQuery qNone)) ∧
    getAllSalesAgents db0 = Except.ok db0.agents ∧
    getAllComments leadId0 db0 =
      Except.error (opError "NOT_FOUND"
        ("Comments for lead ID '" ++ leadId0 ++ "' not found.")) ∧
    getAllTags db0 = Except.error (opError "NOT_FOUND" "No Tags Found.") :=
  ⟨((c4_list_not_found qNone db0 leadId0).1 (by decide)).2 (by decide),
   (c4_list_not_found qNone db0 leadId0).2.1.2 (by decide),
   (((c4_list_not_found qNone db0 leadId0).2.2.1 (by decide)).1).mpr (by decide),
   ((c4_list_not_found qNone db0 leadId0).2.2.2.1).mpr rfl⟩

/-- C5 counterexample: Create Agent on a valid, non-duplicate payload
whose save fails with an unclassified error does not re-raise the
error: it returns nothing (undefined), leaving the request without the
claimed propagated failure. -/
theorem c5_counterexample :
    createNewSalesAgent "A" "a@x.com" ghostId0 (SaveOutcome.failure weirdErr) dbEmpty =
      (Except.ok none, dbEmpty) ∧
    weirdErr.name ≠ some "ValidationError" ∧
    weirdErr.code ≠ some 11000 ∧
    (createNewSalesAgent "A" "a@x.com" ghostId0 (SaveOutcome.failure weirdErr) dbEmpty).1 ≠
      Except.error weirdErr := by
  refine ⟨by decide, by decide, by decide, by decide⟩

/-- C5 amended: an unclassified persistence error (neither a
ValidationError nor a code-11000 duplicate key) propagates unchanged
out of Create Lead, but Create Agent swallows it — its catch has no
rethrow — and returns nothing with the store unchanged. -/
theorem c5_unclassified_errors :
    (∀ (details : LeadDetails) (now : Int) (newId : String) (e : JsError) (db : DB)
       (ag : SalesAgent),
       isValidObjectId details.salesAgent = true →
       findAgent db.agents details.salesAgent = some ag →
       validateLead (buildLead details now newId) = [] →
       e.name ≠ some "ValidationError" →
       createNewLead details now newId (SaveOutcome.failure e) db = (Except.error e, db)) ∧
    (∀ (name email newId : String) (e : JsError) (db : DB),
       validateAgent { id := newId, name := name, email := email } = [] →
       (db.agents.any (fun x => x.email == email)) = false →
       e.name ≠ some "ValidationError" →
       e.code ≠ some 11000 →
       createNewSalesAgent name email newId (SaveOutcome.failure e) db =
         (Except.ok none, db)) := by
  constructor
  · intro details now newId e db ag hid hag hv hne
    have hb : (e.name == some "ValidationError") = false := by
      simp [hne]
    simp [createNewLead, hid, hag, hv, hb]
  · intro name email newId e db hv hdup hne hcode
    have hb : (e.name == some "ValidationError") = false := by
      simp [hne]
    have hc : (e.code == some 11000) = false := by
      simp [hcode]
    simp [createNewSalesAgent, agentSaveResult, hv, hdup, hb, hc]

/-- C5 amended witness: the two branches at a concrete unclassified
error on a concrete store. -/
theorem c5_unclassified_errors_witness :
    createNewLead closedDetails 5 "N2" (SaveOutcome.failure weirdErr) db0 =
      (Except.error weirdErr, db0) ∧
    createNewSalesAgent "B" "b@x.com" ghostId0 (SaveOutcome.failure weirdErr) db0 =
      (Except.ok none, db0) :=
  ⟨c5_unclassified_errors.1 closedDetails 5 "N2" weirdErr db0 agentA
     (by decide) (by decide) (by decide) (by decide),
   c5_unclassified_errors.2 "B" "b@x.com" ghostId0 weirdErr db0
     (by decide) (by decide) (by decide) (by decide)⟩

/-- C6 counterexample: an unmapped failure reaching the GET /leads or
POST /leads/:id/comments boundary produces no response at all, not the
claimed 500. -/
theorem c6_counterexample :
    getLeadsErr typeErr = none ∧ postCommentsErr typeErr = none ∧
    getLeadsErr typeErr ≠ some { status := 500, body := "Server Error." } ∧
    postCommentsErr typeErr ≠ some { status := 500, body := "Server Error." } := by
  refine ⟨rfl, rfl, by decide, by decide⟩

/-- C6 amended: the boundaries map INVALID_ID_FORMAT, INVALID_INPUT,
INVALID_LEAD_ID and INVALID_AGENT_ID to 400, NOT_FOUND to 404 and
DUPLICATE_KEY to 409; POST /leads, PUT /leads/:id and POST /agents map
every unmapped failure to 500, but the GET /leads and POST
/leads/:id/comments switches have no default case and send no
response for an unmapped failure. -/
theorem c6_status_mapping (e : JsError) :
    (e.type = some "INVALID_ID_FORMAT" →
      postLeadsErr e = some { status := 400, body := e.message } ∧
      putLeadErr e = some { status := 400, body := e.message }) ∧
    (e.type = some "INVALID_INPUT" →
      postLeadsErr e = some { status := 400, body := e.message } ∧
      putLeadErr e = some { status := 400, body := e.message } ∧
      getLeadsErr e = some { status := 400, body := e.message } ∧
      postAgentsErr e = some { status := 400, body := e.message } ∧
      postCommentsErr e = some { status := 400, body := e.message }) ∧
    (e.type = some "INVALID_LEAD_ID" →
      postCommentsErr e = some { status := 400, body := e.message }) ∧
    (e.type = some "INVALID_AGENT_ID" →
      postCommentsErr e = some { status := 400, body := e.message }) ∧
    (e.type = some "NOT_FOUND" →
      postLeadsErr e = some { status := 404, body := e.message } ∧
      putLeadErr e = some { status := 404, body := e.message } ∧
      getLeadsErr e = some { status := 404, body := e.message } ∧
      postCommentsErr e = some { status := 404, body := e.message }) ∧
    (e.type = some "DUPLICATE_KEY" →
      postAgentsErr e = some { status := 409, body := e.message }) ∧
    (e.type ≠ some "INVALID_ID_FORMAT" → e.type ≠ some "NOT_FOUND" →
     e.type ≠ some "INVALID_INPUT" →
      postLeadsErr e = some { status := 500, body := "Server Error." } ∧
      putLeadErr e = some { status := 500, body := "Server Error" }) ∧
    (e.type ≠ some "INVALID_INPUT" → e.type ≠ some "DUPLICATE_KEY" →
      postAgentsErr e = some { status := 500, body := "Server Error." }) ∧
    (e.type ≠ some "INVALID_INPUT" → e.type ≠ some "NOT_FOUND" →
      getLeadsErr e = none) ∧
    (e.type ≠ some "INVALID_LEAD_ID" → e.type ≠ some "INVALID_AGENT_ID" →
     e.type ≠ some "NOT_FOUND" → e.type ≠ some "INVALID_INPUT" →
      postCommentsErr e = none) := by
  refine ⟨?_, ?_, ?_, ?_, ?_, ?_, ?_, ?_, ?_, ?_⟩ <;> intros <;>
    rcases hty : e.type with _ | t <;>
    simp_all [postLeadsErr, putLeadErr, getLeadsErr, postAgentsErr, postCommentsErr]

/-- C6 amended witness: the mapping evaluated at concrete failures,
including an unclassified failure at the two defaultless handlers. -/
theorem c6_status_mapping_witness :
    postLeadsErr (opError "NOT_FOUND" "nope") = some { status := 404, body := "nope" } ∧
    postAgentsErr (opError "DUPLICATE_KEY" "dup") = some { status := 409, body := "dup" } ∧
    postLeadsErr typeErr = some { status := 500, body := "Server Error." } ∧
    getLeadsErr typeErr = none ∧
    postCommentsErr typeErr = none :=
  ⟨((c6_status_mapping (opError "NOT_FOUND" "nope")).2.2.2.2.1 rfl).1,
   (c6_status_mapping (opError "DUPLICATE_KEY" "dup")).2.2.2.2.2.1 rfl,
   ((c6_status_mapping typeErr).2.2.2.2.2.2.1 (by decide) (by decide) (by decide)).1,
   (c6_status_mapping typeErr).2.2.2.2.2.2.2.2.1 (by decide) (by decide),
   (c6_status_mapping typeErr).2.2.2.2.2.2.2.2.2 (by decide) (by decide) (by decide)
     (by decide)⟩

/-- C7: Add Comment rejects a structurally invalid leadId with
INVALID_LEAD_ID, a valid leadId with a structurally invalid author
with INVALID_AGENT_ID, and valid identifiers whose Lead does not exist
with NOT_FOUND; in all three cases the store — in particular the
comment collection — is unchanged, so the failure precedes any
persistence. -/
theorem c7_add_comment_failures (leadId : String) (cd : CommentData) (newId : String)
    (now : Int) (out : SaveOutcome) (db : DB) :
    (isValidObjectId leadId = false →
      addComments leadId cd newId now out db =
        (Except.error (opError "INVALID_LEAD_ID" "Invalid Lead ID."), db)) ∧
    (isValidObjectId leadId = true → isValidObjectId cd.author = false →
      addComments leadId cd newId now out db =
        (Except.error (opError "INVALID_AGENT_ID" "Invalid Sales Agent ID."), db)) ∧
    (isValidObjectId leadId = true → isValidObjectId cd.author = true →
      findLead db.leads leadId = none →
      addComments leadId cd newId now out db =
        (Except.error (opError "NOT_FOUND"
          ("Lead with ID '" ++ leadId ++ "' not found.")), db)) := by
  refine ⟨?_, ?_, ?_⟩
  · intro h
    simp [addComments, h]
  · intro h1 h2
    simp [addComments, h1, h2]
  · intro h1 h2 h3
    simp [addComments, h1, h2, h3]

/-- C7 witness: the three failure branches evaluated at concrete
inputs. -/
theorem c7_add_comment_failures_witness :
    addComments "zzz" cdGood "C1" 0 SaveOutcome.success db0 =
      (Except.error (opError "INVALID_LEAD_ID" "Invalid Lead ID."), db0) ∧
    addComments leadId0 cdBad "C1" 0 SaveOutcome.success db0 =
      (Except.error (opError "INVALID_AGENT_ID" "Invalid Sales Agent ID."), db0) ∧
    addComments ghostId0 cdGood "C1" 0 SaveOutcome.success db0 =
      (Except.error (opError "NOT_FOUND"
        ("Lead with ID '" ++ ghostId0 ++ "' not found.")), db0) :=
  ⟨(c7_add_comment_failures "zzz" cdGood "C1" 0 SaveOutcome.success db0).1 (by decide),
   (c7_add_comment_failures leadId0 cdBad "C1" 0 SaveOutcome.success db0).2.1
     (by decide) (by decide),
   (c7_add_comment_failures ghostId0 cdGood "C1" 0 SaveOutcome.success db0).2.2
     (by decide) (by decide) (by decide)⟩

/-- C8: Update Lead with a structurally valid id returns NOT_FOUND and
leaves the store unchanged when no Lead has that id; when the Lead
exists and the merged record passes validation, the returned record is
the prior record with exactly the supplied fields replaced: each
supplied field carries the supplied value and every unsupplied field
carries the prior value. -/
theorem c8_update_lead_merge (leadId : String) (u : LeadUpdate) (db : DB)
    (hid : isValidObjectId leadId = true) :
    (∀ out, findLead db.leads leadId = none →
      updateLead leadId u out db =
        (Except.error (opError "NOT_FOUND" "Lead Not Found."), db)) ∧
    (∀ lead, findLead db.leads leadId = some lead →
      validateLead (applySet u lead) = [] →
      ((updateLead leadId u SaveOutcome.success db).1 = Except.ok (applySet u lead) ∧
       (applySet u lead).name = u.name.getD lead.name ∧
       (applySet u lead).source = u.source.getD lead.source ∧
       (applySet u lead).salesAgent = u.salesAgent.getD lead.salesAgent ∧
       (applySet u lead).status = u.status.getD lead.status ∧
       (applySet u lead).tags = u.tags.getD lead.tags ∧
       (applySet u lead).timeToClose = u.timeToClose.getD lead.timeToClose ∧
       (applySet u lead).priority =
         (match u.priority with | some p => some p | none => lead.priority) ∧
       (applySet u lead).closedAt = u.closedAt.getD lead.closedAt ∧
       (applySet u lead).id = lead.id)) := by
  constructor
  · intro out hnone
    simp [updateLead, hid, hnone]
  · intro lead hfind hv
    exact ⟨by simp [updateLead, hid, hfind, hv], rfl, rfl, rfl, rfl, rfl, rfl, rfl,
      rfl, rfl⟩

/-- C8 witness: both branches at concrete inputs — a missing id is
NOT_FOUND with the store unchanged, and a status-only update returns
the merged record. -/
theorem c8_update_lead_merge_witness :
    updateLead ghostId0 { status := some "Closed" } SaveOutcome.success db0 =
      (Except.error (opError "NOT_FOUND" "Lead Not Found."), db0) ∧
    (updateLead leadId0 { status := some "Closed" } SaveOutcome.success db0).1 =
      Except.ok (applySet { status := some "Closed" } leadL) :=
  ⟨(c8_update_lead_merge ghostId0 { status := some "Closed" } db0 (by decide)).1
     SaveOutcome.success (by decide),
   ((c8_update_lead_merge leadId0 { status := some "Closed" } db0 (by decide)).2
     leadL (by decide) (by decide)).1⟩

/-- C9 counterexample: at a call time of `now0`, the report returns a
lead whose closedAt lies one day in the future, outside the claimed
window ending at the current time. -/
theorem c9_counterexample :
    leadsClosedLastWeek now0 dbC9 = Except.ok [futureLead] ∧
    futureLead.closedAt = some 1700086400000 ∧
    ¬((1700086400000 : Int) ≤ now0) := by
  refine ⟨by decide, rfl, by decide⟩

/-- C9 amended: the report returns exactly the Leads whose closedAt is
at least the current time minus seven days — an inclusive lower bound
with no upper bound — and NOT_FOUND exactly when no stored Lead has a
closedAt in that range. -/
theorem c9_closed_last_week (now : Int) (db : DB) :
    (∀ r, leadsClosedLastWeek now db = Except.ok r →
      r ≠ [] ∧ ∀ l, l ∈ r ↔
        (l ∈ db.leads ∧ ∃ t, l.closedAt = some t ∧ now - sevenDaysMs ≤ t)) ∧
    (leadsClosedLastWeek now db =
        Except.error (opError "NOT_FOUND" "No Closed Leads for Last Week found.") ↔
      ∀ l ∈ db.leads, ∀ t, l.closedAt = some t → t < now - sevenDaysMs) := by
  by_cases hcl : db.leads.filter
      (fun l => match l.closedAt with
                | some t => decide (now - sevenDaysMs ≤ t)
                | none => false) = []
  · have hres : leadsClosedLastWeek now db =
        Except.error (opError "NOT_FOUND" "No Closed Leads for Last Week found.") := by
      simp only [leadsClosedLastWeek]
      rw [hcl]
      simp
    constructor
    · intro r hr
      rw [hres] at hr
      exact absurd hr (by simp)
    · rw [hres]
      constructor
      · intro _ l hl t ht
        have hnp := List.filter_eq_nil_iff.mp hcl l hl
        rw [ht] at hnp
        simp at hnp
        omega
      · intro _
        rfl
  · have hlen : ((db.leads.filter
        (fun l => match l.closedAt with
                  | some t => decide (now - sevenDaysMs ≤ t)
                  | none => false)).length != 0) = true := by
      simpa [bne_iff_ne, List.length_eq_zero] using hcl
    have hres : leadsClosedLastWeek now db =
        Except.ok (db.leads.filter
          (fun l => match l.closedAt with
                    | some t => decide (now - sevenDaysMs ≤ t)
                    | none => false)) := by
      simp only [leadsClosedLastWeek]
      rw [if_pos hlen]
    constructor
    · intro r hr
      rw [hres] at hr
      injection hr with hr
      subst hr
      refine ⟨hcl, ?_⟩
      intro l
      rw [List.mem_filter]
      constructor
      · rintro ⟨hl, hp⟩
        refine ⟨hl, ?_⟩
        cases hct : l.closedAt with
        | none => rw [hct] at hp; simp at hp
        | some t =>
          rw [hct] at hp
          simp at hp
          exact ⟨t, rfl, by omega⟩
      · rintro ⟨hl, t, ht, hle⟩
        refine ⟨hl, ?_⟩
        rw [ht]
        simp
        omega
    · rw [hres]
      constructor
      · intro h
        exact absurd h (by simp)
      · intro hall
        exfalso
        obtain ⟨l, hlmem⟩ := List.exists_mem_of_ne_nil _ hcl
        obtain ⟨hl, hp⟩ := List.mem_filter.mp hlmem
        cases hct : l.closedAt with
        | none => rw [hct] at hp; simp at hp
        | some t =>
          rw [hct] at hp
          simp at hp
          have hlt := hall l hl t hct
          omega

/-- C9 amended witness: on the concrete store the future-closed lead
is returned, and its closedAt meets the inclusive lower bound. -/
theorem c9_closed_last_week_witness :
    [futureLead] ≠ ([] : List Lead) ∧
    (futureLead ∈ [futureLead] ↔
      (futureLead ∈ dbC9.leads ∧
       ∃ t, futureLead.closedAt = some t ∧ now0 - sevenDaysMs ≤ t)) :=
  (c9_closed_last_week now0 dbC9).1 [futureLead] (by decide)
    |>.imp id (fun h => h futureLead)

/-- C10: Add Comment with valid identifiers and an existing Lead never
consults the agents collection: even when no stored agent carries the
author identifier, the call succeeds and appends a comment whose
author field is that unresolvable identifier. -/
theorem c10_author_unchecked (leadId : String) (cd : CommentData) (newId : String)
    (now : Int) (db : DB) (lead : Lead) :
    isValidObjectId leadId = true →
    isValidObjectId cd.author = true →
    findLead db.leads leadId = some lead →
    cd.commentText ≠ "" →
    findAgent db.agents cd.author = none →
    addComments leadId cd newId now SaveOutcome.success db =
      (Except.ok { id := newId, lead := leadId, commentText := cd.commentText,
                   author := cd.author, createdAt := now },
       { db with comments := db.comments ++
          [{ id := newId, lead := leadId, commentText := cd.commentText,
             author := cd.author, createdAt := now }] }) := by
  intro h1 h2 hfind htext _hnoagent
  have hlead : leadId ≠ "" := isValidObjectId_ne_empty leadId h1
  have hauthor : cd.author ≠ "" := isValidObjectId_ne_empty cd.author h2
  have hv : validateComment
      { id := newId, lead := leadId, commentText := cd.commentText,
        author := cd.author, createdAt := now } = [] := by
    simp [validateComment, hlead, htext, hauthor]
  simp [addComments, h1, h2, hfind, hv]

/-- C10 witness: on the concrete store, the comment authored by the
agentless identifier is persisted. -/
theorem c10_author_unchecked_witness :
    addComments leadId0 cdGhost "C2" 7 SaveOutcome.success db0 =
      (Except.ok { id := "C2", lead := leadId0, commentText := "hi",
                   author := ghostId0, createdAt := 7 },
       { db0 with comments := db0.comments ++
          [{ id := "C2", lead := leadId0, commentText := "hi",
             author := ghostId0, createdAt := 7 }] }) :=
  c10_author_unchecked leadId0 cdGhost "C2" 7 db0 leadL (by decide) (by decide)
    (by decide) (by decide) (by decide)

/-- C1 witness: both failure branches evaluated at concrete inputs. -/
theorem c1_create_lead_failures_witness :
    createNewLead badDetails 0 "N1" SaveOutcome.success db0 =
      (Except.error (opError "INVALID_ID_FORMAT" "Invalid ID Format."), db0) ∧
    createNewLead ghostDetails 0 "N1" SaveOutcome.success dbEmpty =
      (Except.error (opError "NOT_FOUND"
        ("Sales agent with ID " ++ ghostId0 ++ " not found.")), dbEmpty) :=
  ⟨(c1_create_lead_failures badDetails 0 "N1" SaveOutcome.success db0).1 (by decide),
   (c1_create_lead_failures ghostDetails 0 "N1" SaveOutcome.success dbEmpty).2
     (by decide) rfl⟩

end Crm
